import Mathlib

/-!
Verification of the camera-controller application (manoharan-lab/camera-controller).

This file contains a shallow embedding of the save/capture logic of
`camera_controller_gui.py`, the simulated camera of `dummy_image_source.py`
and the series compactor of `compress_h5.py`, together with theorems that
settle the specification claims about them.

Conventions used throughout:
* Python 2 `range(a, b)` over naturals is `pyRange a b` (empty when `b ≤ a`,
  exactly as in Python).
* numpy arrays of pixel samples are embedded as `List ℚ`; the samples the
  cameras produce are unsigned integers, and `ℚ` lets `np.true_divide` be
  embedded exactly.
* GUI text boxes hold `String`s; the checkbox-gated fields of the filenames
  tab are a checkbox plus a stored string.
* The filesystem is a list of `path × contents` bindings; the most recent
  binding for a path shadows older ones, and `List.lookup` reads it.

The helpers `increment_textbox`, `zero_textbox`, `textbox_int`,
`textbox_float` and the class `CheckboxGatedValue` are imported by
`camera_controller_gui.py` from a revision of `QtConvenience.py` that is not
part of the sources at hand (the `QtConvenience.py` present is an earlier
revision without them), so they are modelled from the spec; each such
definition carries a doc comment saying so.
-/

namespace CamCtrl

/-! ## Definitions -/

/-- Python 2 `range(a, b)`: the naturals from `a` (inclusive) to `b`
(exclusive); empty when `b ≤ a`. -/
def pyRange (a b : ℕ) : List ℕ := List.range' a (b - a)

/-- `camera_controller_gui.py`, `timerEvent`, buffer-dump branch (lines
656-661): with `lastframe = self.camera.get_frame_number()` the saved index
list is built by
`for i in range(lastframe+2, buffersize+1) + range(1, lastframe+2)`. -/
def buffer_dump_imagenums (buffersize lastframe : ℕ) : List ℕ :=
  pyRange (lastframe + 2) (buffersize + 1) ++ pyRange 1 (lastframe + 2)

/-- Written from the spec's words, for comparison with
`buffer_dump_imagenums`: the spec asserts the dump emits
`[h+1, h+2, ..., N, 1, 2, ..., h]`. -/
def spec_buffer_dump_order (N h : ℕ) : List ℕ :=
  pyRange (h + 1) (N + 1) ++ pyRange 1 (h + 1)

/-- `epix_framegrabber.Camera.get_frame_number` (the hardware backend whose
rolling buffer the dump reads): `pxd_capturedBuffer(0x1,1) - 1`, one less
than the buffer index most recently written by the grabber. -/
def epix_get_frame_number (capturedBuffer : ℕ) : ℕ := capturedBuffer - 1

/-- A pixel sample. Raw camera samples are unsigned integers; `ℚ` also
represents the result of `np.true_divide` exactly. -/
abbrev Pixel := ℚ

/-- A captured frame, flattened to its list of pixel samples. -/
abbrev Frame := List Pixel

/-- Modelled from the spec: a `CheckboxGatedValue` widget from
`QtConvenience.py` (absent from the sources at hand) is a checkbox gating a
stored value; its current text is the stored value when checked and the
empty string when unchecked (the gated fields contribute nothing to the
generated path when disabled). -/
structure CheckboxGatedValue where
  checked : Bool
  value : String
deriving DecidableEq

/-- Modelled from the spec: the value accessor of a `CheckboxGatedValue`;
empty when the box is unchecked. -/
def CheckboxGatedValue.text (c : CheckboxGatedValue) : String :=
  if c.checked then c.value else ""

/-- The filenames-tab state of `captureFrames` (camera_controller_gui.py):
root directory line edit plus the checkbox-gated directory and filename
fields. The date/time fields store the string their `time.strftime` callable
would produce at the current instant. -/
structure FilenameState where
  root_save_path : String
  include_dated_subdir : CheckboxGatedValue
  include_incrementing_dir_num : CheckboxGatedValue
  include_extra_dir_text : CheckboxGatedValue
  include_current_date : CheckboxGatedValue
  include_current_time : CheckboxGatedValue
  include_filename_text : CheckboxGatedValue
  include_incrementing_image_num : CheckboxGatedValue
deriving DecidableEq

/-- Python `s.startswith(pre)`, computed on the character lists. -/
def str_startsWith (s pre : String) : Bool := pre.data.isPrefixOf s.data

/-- Python `s.endswith(suf)`, computed on the character lists. -/
def str_endsWith (s suf : String) : Bool := suf.data.isSuffixOf s.data

/-- POSIX `os.path.join` on two components. -/
def os_path_join2 (a b : String) : String :=
  if str_startsWith b "/" then b
  else if a = "" || str_endsWith a "/" then a ++ b
  else a ++ "/" ++ b

/-- POSIX `os.path.join(*components)`. Python raises `TypeError` on an empty
argument list; that case never arises in the verified call sites, and is
mapped to `""` to keep the function total. -/
def os_path_join : List String → String
  | [] => ""
  | a :: rest => rest.foldl os_path_join2 a

/-- `captureFrames.save_directory` (lines 729-735):
root (with a line-wrap newline appended for the GUI preview when long),
then the dated subdirectory, then `dir_counter_text ++ extra_dir_text`,
keeping only the truthy (nonempty) components, joined by `os.path.join`. -/
def save_directory (s : FilenameState) (linewrap_for_gui : Bool) : String :=
  let root := s.root_save_path
  let root := if linewrap_for_gui && decide (25 < root.length) then root ++ "\n" else root
  let dirextra := s.include_incrementing_dir_num.text ++ s.include_extra_dir_text.text
  os_path_join (List.filter (fun a => !(a == ""))
    [root, s.include_dated_subdir.text, dirextra])

/-- `captureFrames.base_filename` (lines 737-742): date prefix, time prefix,
free text and image counter concatenated, joined onto the save directory. -/
def base_filename (s : FilenameState) (linewrap_for_gui : Bool) : String :=
  let fname := s.include_current_date.text ++ s.include_current_time.text ++
    s.include_filename_text.text ++ s.include_incrementing_image_num.text
  os_path_join [save_directory s linewrap_for_gui, fname]

/-- `captureFrames.filename` (lines 744-745): identical to `base_filename`. -/
def filename (s : FilenameState) (linewrap_for_gui : Bool) : String :=
  base_filename s linewrap_for_gui

/-- `save_directory` as it executes: every operation in its body is a read
of a widget value, so the method returns the directory string and leaves the
widget state exactly as it found it. -/
def save_directory_st (s : FilenameState) (linewrap_for_gui : Bool) :
    String × FilenameState :=
  (save_directory s linewrap_for_gui, s)

/-- `filename` as it executes; like `save_directory_st`, all reads. -/
def filename_st (s : FilenameState) (linewrap_for_gui : Bool) :
    String × FilenameState :=
  (filename s linewrap_for_gui, s)

/-- The numeric value of one digit character (`int` parsing step). -/
def parseDigit (c : Char) : ℕ := c.toNat - 48

/-- Python `int(s)` for the digit strings held in the counter text boxes. -/
def parse_nat (s : String) : ℕ :=
  s.data.foldl (fun acc c => 10 * acc + parseDigit c) 0

/-- The character of one digit value (`str` formatting step). -/
def digitChar (d : ℕ) : Char := Char.ofNat (48 + d)

/-- Little-endian base-10 digits with explicit fuel (structural recursion,
so that concrete counter strings evaluate). -/
def natDigitsAux : ℕ → ℕ → List ℕ
  | _, 0 => []
  | 0, _ + 1 => []
  | fuel + 1, n + 1 => (n + 1) % 10 :: natDigitsAux fuel ((n + 1) / 10)

/-- Little-endian base-10 digits of a natural number. -/
def natDigits (n : ℕ) : List ℕ := natDigitsAux n n

/-- Python `str(n)` for a natural number: its base-10 digits, most
significant first. -/
def formatNat (n : ℕ) : String :=
  if n = 0 then "0" else ⟨((natDigits n).map digitChar).reverse⟩

/-- Left-pad a string with zeros to width `w` (Python `%0*d` formatting);
a string already at least `w` long is returned unchanged. -/
def padZeros (w : ℕ) (s : String) : String :=
  ⟨List.replicate (w - s.length) '0'⟩ ++ s

/-- Modelled from the spec: `increment_textbox` from `QtConvenience.py`
(absent from the sources at hand) advances a counter text box by one,
keeping its fixed zero padding (4 digits for the image counter, 2 for the
directory counter) and widening rather than overflowing when the value
outgrows the padding (9999 becomes 10000). -/
def increment_textbox (s : String) : String :=
  padZeros s.length (formatNat (parse_nat s + 1))

/-- Modelled from the spec: `zero_textbox` from `QtConvenience.py` (absent
from the sources at hand) resets the incrementing image number to "0000". -/
def zero_textbox : String := "0000"

/-- Modelled from the spec: `textbox_int` from `QtConvenience.py` (absent
from the sources at hand) reads a widget's current text as an integer. -/
def textbox_int (c : CheckboxGatedValue) : ℕ := parse_nat c.text

/-- The capture-tab state of `captureFrames` that the save paths touch:
the filenames tab, the written files, the current frame, the Save button,
the slow-series button and its parameters. `interval` holds the parsed
value of the interval line edit (minutes between slow-series frames) and
`numOfFrames2` the parsed slow-series frame count; `slowseries_start` is
the `time.time()` recorded when the slow series started. -/
structure GuiState where
  fstate : FilenameState
  files : List (String × Frame)
  image : Frame
  save_checked : Bool
  last_save_was_series : Bool
  timeseries_slow_checked : Bool
  interval : ℚ
  numOfFrames2 : ℕ
  slowseries_start : ℚ
deriving DecidableEq

/-- `write_image` (lines 1369-1372): converts the frame with `to_pil_image`
(a value-preserving dtype reinterpretation) and saves it at `filename`,
replacing whatever file was there — PIL's `save` performs no existence
check. The new binding shadows any earlier one for the same path. -/
def write_image (files : List (String × Frame)) (fname : String)
    (image : Frame) : List (String × Frame) :=
  (fname, image) :: files

/-- The literal warning text of `update_filename` (line 756). -/
def danger_text : String := "DANGER: SET TO OVERWRITE DATA, CHANGE FILENAME"

/-- `captureFrames.update_filename` (lines 751-756), the text it leaves in
the `path` preview label: the example filename, overwritten with the DANGER
warning when `os.path.isfile(self.filename() + ".tif")` holds. -/
def update_filename_path_label (s : GuiState) : String :=
  if (List.lookup (filename s.fstate false ++ ".tif") s.files).isSome then
    danger_text
  else filename s.fstate true

/-- `captureFrames.save_image` (lines 758-769): record that the last save
was not a series, `mkdir_p` the save directory (directory creation only —
no file contents change), write the image at `self.filename() + ".tif"`,
un-check the Save button, then advance the counters: the image counter if
it is enabled, otherwise the directory counter (zeroing the image counter)
if that one is enabled. -/
def save_image (s : GuiState) : GuiState :=
  let s := { s with last_save_was_series := false }
  let s := { s with
    files := write_image s.files (filename s.fstate false ++ ".tif") s.image,
    save_checked := false }
  if s.fstate.include_incrementing_image_num.checked then
    { s with fstate := { s.fstate with
        include_incrementing_image_num :=
          { s.fstate.include_incrementing_image_num with
            value := increment_textbox s.fstate.include_incrementing_image_num.value } } }
  else if s.fstate.include_incrementing_dir_num.checked then
    { s with fstate := { s.fstate with
        include_incrementing_dir_num :=
          { s.fstate.include_incrementing_dir_num with
            value := increment_textbox s.fstate.include_incrementing_dir_num.value },
        include_incrementing_image_num :=
          { s.fstate.include_incrementing_image_num with value := zero_textbox } } }
  else s

/-- `captureFrames.next_directory` (lines 771-774): when the incrementing
directory number is enabled, advance it and zero the image counter. -/
def next_directory (s : GuiState) : GuiState :=
  if s.fstate.include_incrementing_dir_num.checked then
    { s with fstate := { s.fstate with
        include_incrementing_dir_num :=
          { s.fstate.include_incrementing_dir_num with
            value := increment_textbox s.fstate.include_incrementing_dir_num.value },
        include_incrementing_image_num :=
          { s.fstate.include_incrementing_image_num with value := zero_textbox } } }
  else s

/-- The slow-series due test of `timerEvent` (lines 614-615):
`textbox_int(include_incrementing_image_num) * textbox_float(interval) * 60
<= time.time() - slowseries_start` (the interval box is in minutes). -/
def slow_series_due (s : GuiState) (now : ℚ) : Bool :=
  decide ((textbox_int s.fstate.include_incrementing_image_num : ℚ) *
    s.interval * 60 ≤ now - s.slowseries_start)

/-- The save step of the slow-series branch: `save_image` when due. -/
def slow_tick_save (s : GuiState) (now : ℚ) : GuiState :=
  if slow_series_due s now then save_image s else s

/-- The slow-series branch of `timerEvent` (lines 613-621): when the slow
series is running, save a frame if one is due, then, if the image counter
has reached the requested frame count, un-check the slow-series button and
advance to the next directory. (The Thorlabs stage history save on line
620 concerns only the optional stage peripheral and is omitted.) -/
def slowTick (s : GuiState) (now : ℚ) : GuiState :=
  if s.timeseries_slow_checked then
    let s1 := slow_tick_save s now
    if s1.numOfFrames2 ≤ textbox_int s1.fstate.include_incrementing_image_num then
      next_directory { s1 with timeseries_slow_checked := false }
    else s1
  else s

/-- The display-pipeline state of `captureFrames`: the current frame, the
optional background and its label, the background/contrast toggles, and the
contrast bounds. `minpixval`/`maxpixval` hold the parsed values of the
contrast line edits (their `str(np.round(x, 3))` display formatting is a
GUI-only concern not modelled here). -/
structure DisplayState where
  image : Frame
  background_image : Option Frame
  background_image_filename : String
  divide_background : Bool
  contrast_autoscale : Bool
  applybackground : Bool
  get_bkgd_from_file : Bool
  minpixval : Pixel
  maxpixval : Pixel
deriving DecidableEq

/-- numpy fancy assignment `im[im == 0] = 1`: every zero sample becomes 1. -/
def clampZeros (im : Frame) : Frame :=
  im.map fun p => if p = 0 then 1 else p

/-- `np.true_divide`, element-wise exact division. -/
def true_divide (a b : Frame) : Frame :=
  List.zipWith (fun x y => x / y) a b

/-- `ndarray.min()`; numpy raises on an empty array, mapped to 0. -/
def npMin : Frame → Pixel
  | [] => 0
  | x :: xs => xs.foldl min x

/-- `ndarray.max()`; numpy raises on an empty array, mapped to 0. -/
def npMax : Frame → Pixel
  | [] => 0
  | x :: xs => xs.foldl max x

/-- `ndarray.clip(lo, hi)` on one sample. -/
def clip (lo hi x : Pixel) : Pixel := min hi (max lo x)

/-- `scipy.misc.bytescale(data, cmin, cmax)` with the default `low=0`,
`high=255`: linear rescale of `[cmin, cmax]` onto `[0, 255]`, clip, add 0.5
and truncate to an unsigned byte. Exact rational arithmetic stands in for
the float arithmetic of the original; `cmax = cmin` would divide by zero in
scipy and yields the (never relied upon) junk value 0 here. -/
def bytescale (im : Frame) (cmin cmax : Pixel) : Frame :=
  let scale := 255 / (cmax - cmin)
  im.map fun p => ((⌊clip 0 255 ((p - cmin) * scale) + 1 / 2⌋ : ℤ) : ℚ)

/-- `captureFrames.showImage` (lines 698-727): starting from the current
frame, divide by the background when enabled and present, autoscale the
contrast bounds to the observed min/max when enabled, bytescale with the
(possibly just updated) bounds, and hand the result to the display. The
PIL/Qt bitmap conversion and on-screen scaling that follow do not touch the
pixel data and are omitted. Returns the displayed bytes and the updated
widget state; each numpy step (`true_divide`, `astype`, `bytescale`)
returns a fresh array, so `self.image` is left untouched. -/
def showImage (s : DisplayState) : Frame × DisplayState :=
  let im := s.image
  let im := if s.divide_background && s.background_image.isSome then
      true_divide im (s.background_image.getD []) else im
  let s := if s.contrast_autoscale then
      { s with minpixval := npMin im, maxpixval := npMax im } else s
  let im := bytescale im s.minpixval s.maxpixval
  (im, s)

/-- `captureFrames.select_background` (lines 1045-1077). When applying: the
background is either loaded from a file (`fileName`, `fileImage` stand for
the dialog result and the loaded array) or taken as `im = self.image` from
the buffer; then `im[im == 0] = 1` clamps zero pixels in place so the
stored background is safe as a divisor. In the buffer branch `im` aliases
`self.image`, so the in-place clamp also rewrites the stored frame — the
embedding records this by updating `image` there. The live/freeze button
shuffling around the file dialog only pauses the feed and is omitted. -/
def select_background (s : DisplayState) (fileName : String)
    (fileImage : Frame) : DisplayState :=
  if s.applybackground then
    if s.get_bkgd_from_file then
      let im := clampZeros fileImage
      { s with
        background_image_filename := fileName,
        background_image := some im,
        divide_background := true,
        contrast_autoscale := true }
    else
      let im := clampZeros s.image
      { s with
        image := im,
        background_image_filename := "Background Set from Buffer",
        background_image := some im,
        divide_background := true,
        contrast_autoscale := true }
  else
    { s with divide_background := false }

/-- `dummy_image_source.DummyCamera`: the simulated camera. `stop_frame` is
`np.Inf` at construction and after `start_continuous_capture`, embedded as
`none`; `start_sequence_capture(n)` sets it to `n + 1`. -/
structure DummyCamera where
  bit_depth : Option ℕ
  roi_shape : List ℕ
  live : Bool
  lastimage : Option Frame
  frame_number : ℕ
  stop_frame : Option ℕ
deriving DecidableEq

/-- `DummyCamera.__init__`. -/
def DummyCamera.init : DummyCamera :=
  { bit_depth := none, roi_shape := [1024, 1024], live := true,
    lastimage := none, frame_number := 1, stop_frame := none }

/-- The capture condition of `DummyCamera.get_image`:
`self.live and self.frame_number < self.stop_frame` (any number is below
`np.Inf`). -/
def DummyCamera.capturing (c : DummyCamera) : Bool :=
  c.live && (match c.stop_frame with
    | none => true
    | some s => decide (c.frame_number < s))

/-- `DummyCamera.get_image` (the buffer number argument is ignored by the
dummy): when live and below the stop frame, store a fresh random frame
(`random`, supplied by the caller in this embedding) and advance
`frame_number`; always return `lastimage`. -/
def DummyCamera.get_image (c : DummyCamera) (random : Frame) :
    Option Frame × DummyCamera :=
  if c.capturing then
    let c := { c with lastimage := some random,
                      frame_number := c.frame_number + 1 }
    (c.lastimage, c)
  else (c.lastimage, c)

/-- `DummyCamera.get_frame_number`. -/
def DummyCamera.get_frame_number (c : DummyCamera) : ℕ := c.frame_number

/-- `DummyCamera.start_continuous_capture` (the buffer size is ignored). -/
def DummyCamera.start_continuous_capture (c : DummyCamera) : DummyCamera :=
  { c with frame_number := 1, live := true, stop_frame := none }

/-- `DummyCamera.start_sequence_capture(n)`: reset the frame counter and
stop after `n` further captures (`stop_frame = n + 1`). -/
def DummyCamera.start_sequence_capture (c : DummyCamera) (n_frames : ℕ) :
    DummyCamera :=
  { c with frame_number := 1, live := true, stop_frame := some (n_frames + 1) }

/-- `DummyCamera.stop_live_capture`. -/
def DummyCamera.stop_live_capture (c : DummyCamera) : DummyCamera :=
  { c with live := false }

/-- `DummyCamera.finished_live_sequence`:
`self.frame_number >= self.stop_frame` (false while `stop_frame` is
`np.Inf`). -/
def DummyCamera.finished_live_sequence (c : DummyCamera) : Bool :=
  match c.stop_frame with
  | none => false
  | some s => decide (s ≤ c.frame_number)

/-- One `get_image` per timer tick: run the dummy camera over a list of
incoming random frames. -/
def run_ticks (c : DummyCamera) : List Frame → DummyCamera
  | [] => c
  | r :: rs => run_ticks (c.get_image r).2 rs

/-- `write_timeseries` (lines 1346-1358), the datasets written to the
uncompressed h5 file: one dataset per entry of `imageNums`, keyed by the
running index `j` as a string, holding `self.camera.get_image(i)`
(`get_image` abstracts the camera read). -/
def write_timeseries_datasets {F : Type} (get_image : ℕ → F)
    (imageNums : List ℕ) : List (String × F) :=
  imageNums.enum.map fun ji => (formatNat ji.1, get_image ji.2)

/-- `write_timeseries` also writes a single thumbnail image of the first
requested frame at `filename + ".tif"` before the h5 dump. -/
def write_timeseries_thumbnail {F : Type} (fname : String)
    (get_image : ℕ → F) (imageNums : List ℕ) : String × Option F :=
  (fname ++ ".tif", imageNums.head?.map get_image)

/-- Python `name.split('.')` on the character list: splitting an empty
string gives `[""]`, and consecutive separators give empty components,
exactly as in Python. -/
def split_on_dot : List Char → List String
  | [] => [""]
  | c :: rest =>
    let r := split_on_dot rest
    if c = '.' then "" :: r
    else
      match r with
      | [] => [⟨[c]⟩]
      | piece :: more => (⟨[c]⟩ ++ piece) :: more

/-- Python `name.split('.')`. -/
def pySplit (s : String) : List String := split_on_dot s.data

/-- How `compress_h5` treats its input file name (compress_h5.py lines
38-43): `parts[-2]` raises `IndexError` when the split has fewer than two
parts; otherwise the file is skipped unless `parts[-2] == 'uncompressed'`,
and when processed the output name is `'.'.join(parts[:-2] + parts[-1:])`. -/
inductive CompressNameOutcome where
  | crash : CompressNameOutcome
  | skipped : CompressNameOutcome
  | proceeds (outname : String) : CompressNameOutcome
deriving DecidableEq

/-- The name guard and output-name computation of `compress_h5`. -/
def compress_h5_name_check (name : String) : CompressNameOutcome :=
  let parts := pySplit name
  if 2 ≤ parts.length then
    if parts.getD (parts.length - 2) "" = "uncompressed" then
      CompressNameOutcome.proceeds (String.intercalate "."
        (parts.take (parts.length - 2) ++ parts.drop (parts.length - 1)))
    else CompressNameOutcome.skipped
  else CompressNameOutcome.crash

/-- The chunk buffer fill of `compress_h5`: `buffer[..., i] =
inf[str(base + i)]`. The input file's datasets are abstracted as
`inf : ℕ → F` with dataset `str(k)` written `inf k`. -/
def fill_buffer {F : Type} (inf : ℕ → F) (base : ℕ) : ℕ → F :=
  fun i => inf (base + i)

/-- The chunked slice assignment `outf['images'][..., base : base+len] =
buffer`: positions `base ≤ j < base + len` of the output receive
`buffer[j - base]`, the rest keep their previous contents. -/
def write_slice {F : Type} (out : ℕ → Option F) (base len : ℕ)
    (buf : ℕ → F) : ℕ → Option F :=
  fun j => if base ≤ j ∧ j < base + len then some (buf (j - base)) else out j

/-- The main copy loop of `compress_h5`:
`while (block+1)*chunk <= n_frames`, copy the full chunk starting at
`block*chunk` and advance `block`. The `0 < chunk` guard makes the loop a
total function; `chunk = min(n_frames, 100)` is positive whenever the input
holds at least one frame (with `chunk = 0`, i.e. an empty input, the Python
loop would not terminate — but `compress_h5` has already crashed reading
`inf['1']` by then). Returns the filled output and the final block count. -/
def block_loop {F : Type} (inf : ℕ → F) (chunk n_frames block : ℕ)
    (out : ℕ → Option F) : (ℕ → Option F) × ℕ :=
  if h : 0 < chunk ∧ (block + 1) * chunk ≤ n_frames then
    block_loop inf chunk n_frames (block + 1)
      (write_slice out (block * chunk) chunk (fill_buffer inf (block * chunk)))
  else (out, block)
termination_by n_frames - block * chunk
decreasing_by
  obtain ⟨hc, hb⟩ := h
  rw [Nat.succ_mul] at hb ⊢
  omega

/-- The data movement of `compress_h5` (lines 48-69): chunked full-block
copies followed by the partial final chunk when `chunk` does not evenly
divide `n_frames`. Position `i` of the result is dataset `str(i)` of the
input; `none` marks a position the copy never wrote. -/
def compress_copy {F : Type} (inf : ℕ → F) (n_frames : ℕ) : ℕ → Option F :=
  let chunk := min n_frames 100
  let r := block_loop inf chunk n_frames 0 (fun _ => none)
  if r.2 * chunk < n_frames then
    write_slice r.1 (r.2 * chunk) (n_frames - r.2 * chunk)
      (fill_buffer inf (r.2 * chunk))
  else r.1

/-- The filenames-tab state of the spec's concrete scenario: root "/data",
dated subdirectory off, directory counter "00" enabled, extra directory
text disabled, date and time prefixes off, free text "image" enabled,
image counter "0000" enabled. -/
def scenario_fstate : FilenameState :=
  { root_save_path := "/data",
    include_dated_subdir := { checked := false, value := "2014-06-16" },
    include_incrementing_dir_num := { checked := true, value := "00" },
    include_extra_dir_text := { checked := false, value := "" },
    include_current_date := { checked := false, value := "2014-06-16_" },
    include_current_time := { checked := false, value := "12_00_00_" },
    include_filename_text := { checked := true, value := "image" },
    include_incrementing_image_num := { checked := true, value := "0000" } }

/-- A capture state in which the target file of the next save already
exists on disk with known contents `[0]`, while the frame about to be
saved is `[42]`. -/
def collision_state : GuiState :=
  { fstate := scenario_fstate,
    files := [("/data/00/image0000.tif", [0])],
    image := [42],
    save_checked := true,
    last_save_was_series := true,
    timeseries_slow_checked := false,
    interval := 1 / 2,
    numOfFrames2 := 10,
    slowseries_start := 0 }

/-- A capture state in the middle of a slow time series: trigger set,
counters at the scenario defaults, half-a-minute interval, one frame
requested, started at time 0. -/
def slow_state : GuiState :=
  { fstate := scenario_fstate,
    files := [],
    image := [7],
    save_checked := false,
    last_save_was_series := true,
    timeseries_slow_checked := true,
    interval := 1 / 2,
    numOfFrames2 := 1,
    slowseries_start := 0 }

/-- A display state holding a captured frame with a zero-valued pixel,
about to have the background applied from the live buffer. -/
def zero_pixel_state : DisplayState :=
  { image := [0, 5],
    background_image := none,
    background_image_filename := "No background applied",
    divide_background := false,
    contrast_autoscale := false,
    applybackground := true,
    get_bkgd_from_file := false,
    minpixval := 0,
    maxpixval := 255 }

/-- A display state like `zero_pixel_state` but whose captured frame has no
zero-valued pixel. -/
def no_zero_state : DisplayState :=
  { image := [2, 5],
    background_image := none,
    background_image_filename := "No background applied",
    divide_background := false,
    contrast_autoscale := false,
    applybackground := true,
    get_bkgd_from_file := false,
    minpixval := 0,
    maxpixval := 255 }

end CamCtrl

namespace CamCtrl

/-! ## Theorems -/

/-- The emitted dump is the rotation of `[1..N]` that starts at `h+2`:
drop the first `h+1` indices and append them at the end. -/
theorem buffer_dump_eq_rotate (N h : ℕ) (hN : h + 1 ≤ N) :
    buffer_dump_imagenums N h = (List.range' 1 N).rotate (h + 1) := by
  have hsplit : List.range' 1 (h + 1) ++ List.range' (1 + (h + 1)) (N - (h + 1)) =
      List.range' 1 N := by
    rw [List.range'_append_1]
    congr 1
    omega
  have hlen : (List.range' 1 (h + 1)).length = h + 1 := List.length_range' _ _ _
  have hrot : (List.range' 1 N).rotate (h + 1) =
      (List.range' 1 N).drop (h + 1) ++ (List.range' 1 N).take (h + 1) := by
    apply List.rotate_eq_drop_append_take
    simpa using hN
  rw [hrot, ← hsplit]
  rw [List.drop_left' hlen, List.take_left' hlen]
  unfold buffer_dump_imagenums pyRange
  congr 1
  congr 1 <;> omega

/-- A digit round-trips through formatting and parsing. -/
theorem parseDigit_digitChar (d : ℕ) (hd : d < 10) :
    parseDigit (digitChar d) = d := by
  interval_cases d <;> rfl

/-- Folding the parse step over a most-significant-first digit string
recovers the number the (little-endian) digit list denotes. -/
theorem foldl_parse_digits (ds : List ℕ) (h : ∀ d ∈ ds, d < 10) :
    ((ds.map digitChar).reverse).foldl (fun acc c => 10 * acc + parseDigit c) 0 =
      Nat.ofDigits 10 ds := by
  induction ds with
  | nil => simp [Nat.ofDigits]
  | cons d t ih =>
    have hd : d < 10 := h d (List.mem_cons_self d t)
    have ht : ∀ x ∈ t, x < 10 := fun x hx => h x (List.mem_cons_of_mem d hx)
    simp only [List.map_cons, List.reverse_cons, List.foldl_append,
      List.foldl_cons, List.foldl_nil]
    rw [ih ht, parseDigit_digitChar d hd, Nat.ofDigits_cons]
    ring

/-- The fuel-based digit function agrees with `Nat.digits 10` whenever the
fuel is sufficient. -/
theorem natDigitsAux_eq (fuel : ℕ) :
    ∀ n, n ≤ fuel → natDigitsAux fuel n = Nat.digits 10 n := by
  induction fuel with
  | zero =>
    intro n hn
    interval_cases n
    simp [natDigitsAux]
  | succ f ih =>
    intro n hn
    match n with
    | 0 => simp [natDigitsAux]
    | m + 1 =>
      rw [natDigitsAux]
      have hdiv : (m + 1) / 10 ≤ f := by
        have := Nat.div_lt_self (Nat.succ_pos m) (by norm_num : 1 < 10)
        omega
      rw [ih _ hdiv, ← Nat.digits_def' (by norm_num : (1:ℕ) < 10) (Nat.succ_pos m)]

/-- `natDigits` is `Nat.digits 10`. -/
theorem natDigits_eq (n : ℕ) : natDigits n = Nat.digits 10 n :=
  natDigitsAux_eq n n le_rfl

/-- Python `int(str(n)) == n`. -/
theorem parse_nat_formatNat (n : ℕ) : parse_nat (formatNat n) = n := by
  unfold formatNat
  split
  · subst n
    rfl
  · unfold parse_nat
    rw [natDigits_eq]
    have h := foldl_parse_digits (Nat.digits 10 n)
      (fun d hd => Nat.digits_lt_base (by norm_num) hd)
    simpa [Nat.ofDigits_digits] using h

/-- Leading zeros do not change the parsed value. -/
theorem parse_nat_padZeros (w : ℕ) (s : String) :
    parse_nat (padZeros w s) = parse_nat s := by
  unfold padZeros parse_nat
  rw [String.data_append]
  show (List.replicate (w - s.length) '0' ++ s.data).foldl _ 0 = _
  rw [List.foldl_append]
  congr 1
  induction (w - s.length) with
  | zero => rfl
  | succ m ih => simpa [List.replicate_succ] using ih

/-- `increment_textbox` advances the parsed counter value by exactly one. -/
theorem parse_nat_increment_textbox (s : String) :
    parse_nat (increment_textbox s) = parse_nat s + 1 := by
  unfold increment_textbox
  rw [parse_nat_padZeros, parse_nat_formatNat]

/-- C1. The claim asserts that with `h = get_frame_number()` the buffer
dump emits `[h+1, ..., N, 1, ..., h]`. That is false on the code: for a
buffer of capacity 5 frozen at `h = 2`, the loop of `timerEvent` emits
`[4, 5, 1, 2, 3]`, not `[3, 4, 5, 1, 2]`. -/
theorem c1_buffer_dump_counterexample :
    buffer_dump_imagenums 5 2 = [4, 5, 1, 2, 3] ∧
    spec_buffer_dump_order 5 2 = [3, 4, 5, 1, 2] ∧
    buffer_dump_imagenums 5 2 ≠ spec_buffer_dump_order 5 2 := by
  refine ⟨by decide, by decide, by decide⟩

/-- C1 (amended). For a rolling buffer of capacity N frozen with
`get_frame_number() = h` (`0 ≤ h ≤ N - 1`), the buffer dump emits the
index list `[h+2, ..., N, 1, ..., h+1]`: the rotation of `[1..N]` starting
at `h+2`, of length exactly N, ending at `h+1`. Since the epix backend's
`get_frame_number` returns `pxd_capturedBuffer - 1`, the list ends at the
most recently captured buffer `h+1 = capturedBuffer` and is chronological,
oldest to newest. -/
theorem c1_buffer_dump_amended (N h : ℕ) (hN : h + 1 ≤ N) :
    buffer_dump_imagenums N h = pyRange (h + 2) (N + 1) ++ pyRange 1 (h + 2) ∧
    buffer_dump_imagenums N h = (List.range' 1 N).rotate (h + 1) ∧
    (buffer_dump_imagenums N h).length = N ∧
    (buffer_dump_imagenums N h).getLast? =
      some (epix_get_frame_number (h + 1) + 1) := by
  refine ⟨rfl, buffer_dump_eq_rotate N h hN, ?_, ?_⟩
  · rw [buffer_dump_eq_rotate N h hN]
    simp
  · have hsplit : pyRange 1 (h + 2) = List.range' 1 h ++ [1 + h] := by
      unfold pyRange
      have : h + 2 - 1 = h + 1 := by omega
      rw [this, List.range'_1_concat]
    unfold buffer_dump_imagenums
    rw [hsplit, ← List.append_assoc, List.getLast?_concat]
    unfold epix_get_frame_number
    congr 1
    omega

/-- C1 (amended) at the concrete input N = 5, h = 2. -/
theorem c1_buffer_dump_amended_witness :
    buffer_dump_imagenums 5 2 = pyRange 4 6 ++ pyRange 1 4 ∧
    buffer_dump_imagenums 5 2 = (List.range' 1 5).rotate 3 ∧
    (buffer_dump_imagenums 5 2).length = 5 ∧
    (buffer_dump_imagenums 5 2).getLast? = some (epix_get_frame_number 3 + 1) :=
  c1_buffer_dump_amended 5 2 (by decide)

/-- C5. Computing the save directory and the full example path is
side-effect-free and deterministic: the state-threaded renderings of
`save_directory` and `filename` return the widget state unchanged, and a
second call on the state the first one hands back produces the identical
strings. -/
theorem c5_directory_pure (s : FilenameState) (linewrap : Bool) :
    (save_directory_st s linewrap).2 = s ∧
    (filename_st s linewrap).2 = s ∧
    (save_directory_st (save_directory_st s linewrap).2 linewrap).1 =
      (save_directory_st s linewrap).1 ∧
    (filename_st (filename_st s linewrap).2 linewrap).1 =
      (filename_st s linewrap).1 :=
  ⟨rfl, rfl, rfl, rfl⟩

/-- C6. The spec's concrete scenario: root "/data", dated subdirectory
off, directory counter "00" on, extra text off, date and time off, free
text "image" on, image counter "0000" on, extension ".tif" gives the
directory "/data/00" and the save path "/data/00/image0000.tif". -/
theorem c6_filename_scenario :
    save_directory scenario_fstate false = "/data/00" ∧
    filename scenario_fstate false ++ ".tif" = "/data/00/image0000.tif" := by
  refine ⟨by decide, by decide⟩

/-- After a save, the filesystem holds the just-written image at the save
path computed from the pre-save widget state, on top of the old contents. -/
theorem save_image_files (s : GuiState) :
    (save_image s).files =
      (filename s.fstate false ++ ".tif", s.image) :: s.files := by
  simp only [save_image, write_image]
  split_ifs <;> rfl

/-- C2. The claim asserts an existing target file blocks the write and a
collision is signalled. That is false on the code: in `collision_state`
the target "/data/00/image0000.tif" exists with contents `[0]`, and
`save_image` replaces it with the new frame `[42]` without any check. -/
theorem c2_overwrite_counterexample :
    List.lookup "/data/00/image0000.tif" collision_state.files = some [0] ∧
    List.lookup "/data/00/image0000.tif" (save_image collision_state).files =
      some [42] ∧
    ([0] : Frame) ≠ [42] := by
  refine ⟨by decide, by decide, by decide⟩

/-- C2 (amended). A single-image save never blocks: `write_image` writes
unconditionally, so whatever file is at the target path is replaced by the
current frame. The only collision signalling in the program is the preview
label: `update_filename` shows the DANGER warning exactly when the target
file already exists, and the example path otherwise. -/
theorem c2_overwrite_amended (s : GuiState) :
    List.lookup (filename s.fstate false ++ ".tif") (save_image s).files =
      some s.image ∧
    update_filename_path_label s =
      (if (List.lookup (filename s.fstate false ++ ".tif") s.files).isSome then
        danger_text
      else filename s.fstate true) := by
  refine ⟨?_, rfl⟩
  rw [save_image_files]
  exact List.lookup_cons_self

/-- C3. After a successful single-image save: with the incrementing image
counter enabled, the image counter advances by exactly one (widening its
digits rather than overflowing, e.g. "9999" to "10000") and the directory
counter is untouched; with the image counter disabled and the directory
counter enabled, the directory counter advances by exactly one and the
image counter resets to "0000". -/
theorem c3_counter_increment (s : GuiState) :
    (s.fstate.include_incrementing_image_num.checked = true →
      parse_nat (save_image s).fstate.include_incrementing_image_num.value =
        parse_nat s.fstate.include_incrementing_image_num.value + 1 ∧
      (save_image s).fstate.include_incrementing_dir_num =
        s.fstate.include_incrementing_dir_num) ∧
    (s.fstate.include_incrementing_image_num.checked = false →
      s.fstate.include_incrementing_dir_num.checked = true →
      parse_nat (save_image s).fstate.include_incrementing_dir_num.value =
        parse_nat s.fstate.include_incrementing_dir_num.value + 1 ∧
      (save_image s).fstate.include_incrementing_image_num.value = "0000") ∧
    increment_textbox "9999" = "10000" := by
  refine ⟨?_, ?_, by decide⟩
  · intro himg
    simp only [save_image, write_image]
    rw [if_pos himg]
    exact ⟨parse_nat_increment_textbox _, rfl⟩
  · intro himg hdir
    simp only [save_image, write_image]
    rw [if_neg (by simp [himg]), if_pos hdir]
    exact ⟨parse_nat_increment_textbox _, rfl⟩

/-- C3 at the concrete state `collision_state` (image counter "0000"
enabled): the saved counter parses to 1 and the directory counter is
untouched. -/
theorem c3_counter_increment_witness :
    parse_nat (save_image collision_state).fstate.include_incrementing_image_num.value =
      parse_nat collision_state.fstate.include_incrementing_image_num.value + 1 ∧
    (save_image collision_state).fstate.include_incrementing_dir_num =
      collision_state.fstate.include_incrementing_dir_num :=
  (c3_counter_increment collision_state).1 (by decide)

/-- Running the dummy camera while its stop frame is `stop`: the frame
counter advances once per tick while strictly below `stop`, so it ends at
`min (start + ticks) (max start stop)`; liveness and the stop frame are
unchanged by ticking. -/
theorem get_image_snd (c : DummyCamera) (r : Frame) :
    (c.get_image r).2 = if c.capturing then
      { c with lastimage := some r, frame_number := c.frame_number + 1 }
    else c := by
  unfold DummyCamera.get_image
  split <;> rfl

theorem run_ticks_spec (stop : ℕ) (frames : List Frame) :
    ∀ c : DummyCamera, c.live = true → c.stop_frame = some stop →
      (run_ticks c frames).frame_number =
        min (c.frame_number + frames.length) (max c.frame_number stop) ∧
      (run_ticks c frames).live = true ∧
      (run_ticks c frames).stop_frame = some stop := by
  induction frames with
  | nil =>
    intro c hlive hstop
    refine ⟨?_, hlive, hstop⟩
    simp only [run_ticks, List.length_nil]
    omega
  | cons r rs ih =>
    intro c hlive hstop
    simp only [run_ticks, get_image_snd]
    unfold DummyCamera.capturing
    rw [hlive, hstop]
    simp only [Bool.true_and, decide_eq_true_eq]
    by_cases hlt : c.frame_number < stop
    · rw [if_pos hlt]
      have h := ih { c with live := true, lastimage := some r,
                            frame_number := c.frame_number + 1,
                            stop_frame := some stop } rfl rfl
      refine ⟨?_, h.2.1, h.2.2⟩
      rw [h.1]
      show min (c.frame_number + 1 + rs.length) (max (c.frame_number + 1) stop) = _
      simp only [List.length_cons]
      omega
    · rw [if_neg hlt]
      have h := ih c hlive hstop
      refine ⟨?_, h.2.1, h.2.2⟩
      rw [h.1]
      simp only [List.length_cons]
      omega

/-- C4. After `start_sequence_capture(n)` the dummy camera reports
`finished_live_sequence` exactly once `n` frames have been captured: after
`k` ticks the frame counter reads `1 + min k n` (so exactly `min k n`
frames were captured) and the finished flag is the test `n ≤ k`. The fast
time-series dump that `timerEvent` then performs over
`range(1, 1 + n)` writes exactly `n` datasets to the series file. -/
theorem c4_fast_series {F : Type} (n : ℕ) (frames : List Frame)
    (c : DummyCamera) (get_image : ℕ → F) :
    (run_ticks (c.start_sequence_capture n) frames).frame_number =
      1 + min frames.length n ∧
    (run_ticks (c.start_sequence_capture n) frames).finished_live_sequence =
      decide (n ≤ frames.length) ∧
    (write_timeseries_datasets get_image (pyRange 1 (1 + n))).length = n := by
  have h := run_ticks_spec (n + 1) frames (c.start_sequence_capture n) rfl rfl
  have hfn : (run_ticks (c.start_sequence_capture n) frames).frame_number =
      1 + min frames.length n := by
    rw [h.1]
    show min (1 + frames.length) (max 1 (n + 1)) = _
    omega
  refine ⟨hfn, ?_, ?_⟩
  · unfold DummyCamera.finished_live_sequence
    rw [h.2.2, hfn]
    simp only [decide_eq_decide]
    omega
  · unfold write_timeseries_datasets pyRange
    rw [List.length_map, List.enum_length, List.length_range']
    omega

/-- Every background stored by `select_background` has been through the
zero clamp, hence has no zero pixels. -/
theorem select_background_no_zero (s : DisplayState) (fileName : String)
    (fileImage : Frame) (b : Frame)
    (hab : s.applybackground = true)
    (hbg : (select_background s fileName fileImage).background_image = some b) :
    ∀ p ∈ b, p ≠ 0 := by
  unfold select_background at hbg
  rw [if_pos hab] at hbg
  have hb : b = clampZeros fileImage ∨ b = clampZeros s.image := by
    by_cases hf : s.get_bkgd_from_file = true
    · rw [if_pos hf] at hbg
      exact Or.inl (Option.some_injective _ hbg.symm)
    · rw [if_neg hf] at hbg
      exact Or.inr (Option.some_injective _ hbg.symm)
  intro p hp
  have : ∀ im : Frame, p ∈ clampZeros im → p ≠ 0 := by
    intro im hmem
    unfold clampZeros at hmem
    obtain ⟨q, _, hq⟩ := List.mem_map.mp hmem
    by_cases hq0 : q = 0
    · rw [hq0] at hq
      simp only [if_pos rfl] at hq
      rw [← hq]
      norm_num
    · rw [if_neg hq0] at hq
      rw [← hq]
      exact hq0
  rcases hb with hb | hb <;> exact this _ (hb ▸ hp)

/-- Dividing by an all-ones background is the identity. -/
theorem true_divide_ones (raw : Frame) :
    true_divide raw (List.replicate raw.length 1) = raw := by
  induction raw with
  | nil => rfl
  | cons x xs ih =>
    simp only [List.length_cons, List.replicate_succ]
    unfold true_divide at ih ⊢
    rw [List.zipWith_cons_cons, ih, div_one]

/-- C7. Every background stored by `select_background` has no zero-valued
pixels (zeros are clamped to 1 at selection), so the division step of
`showImage` never divides by zero; and dividing a raw frame by an
all-ones background returns the raw frame exactly. -/
theorem c7_background_division (s : DisplayState) (fileName : String)
    (fileImage : Frame) (b : Frame) (raw : Frame) :
    (s.applybackground = true →
      (select_background s fileName fileImage).background_image = some b →
      ∀ p ∈ b, p ≠ 0) ∧
    true_divide raw (List.replicate raw.length 1) = raw :=
  ⟨fun hab hbg => select_background_no_zero s fileName fileImage b hab hbg,
   true_divide_ones raw⟩

/-- C7 at a concrete input: applying the background from the buffer in
`zero_pixel_state` stores `[1, 5]`, which has no zero entry; and
`[3, 4] / [1, 1] = [3, 4]`. -/
theorem c7_background_division_witness :
    (∀ p ∈ ([1, 5] : Frame), p ≠ 0) ∧
    true_divide [3, 4] (List.replicate (([3, 4] : Frame).length) 1) = [3, 4] :=
  ⟨(c7_background_division zero_pixel_state "" [] [1, 5] [3, 4]).1
      (by decide) (by decide),
   (c7_background_division zero_pixel_state "" [] [1, 5] [3, 4]).2⟩

/-- Clamping a frame without zero pixels changes nothing. -/
theorem clampZeros_of_no_zero (im : Frame) (h : ∀ p ∈ im, p ≠ 0) :
    clampZeros im = im := by
  unfold clampZeros
  induction im with
  | nil => rfl
  | cons x xs ih =>
    rw [List.map_cons]
    rw [if_neg (h x (List.mem_cons_self x xs))]
    rw [ih (fun p hp => h p (List.mem_cons_of_mem x hp))]

/-- C8. The claim asserts the display pipeline, including background
selection from the live buffer, never mutates the captured frame. That is
false on the code: in `zero_pixel_state` the captured frame is `[0, 5]`,
and applying the background from the buffer rewrites it in place to
`[1, 5]` (the clamp `im[im == 0] = 1` acts on an alias of `self.image`). -/
theorem c8_mutation_counterexample :
    zero_pixel_state.image = [0, 5] ∧
    (select_background zero_pixel_state "" []).image = [1, 5] ∧
    (select_background zero_pixel_state "" []).image ≠ zero_pixel_state.image := by
  refine ⟨by decide, by decide, by decide⟩

/-- C8 (amended). The display transforms of `showImage` never change the
stored frame, for every combination of background-division, autoscale and
contrast settings; and `select_background` leaves the frame untouched when
the background comes from a file or when it is not being applied. But
selecting the background from the live buffer clamps the stored frame in
place: the frame becomes its zero-clamped copy, so it is changed exactly
at its zero-valued pixels and preserved when it has none. -/
theorem c8_no_mutation_amended (s : DisplayState) (fileName : String)
    (fileImage : Frame) :
    (showImage s).2.image = s.image ∧
    (s.applybackground = false →
      (select_background s fileName fileImage).image = s.image) ∧
    (s.get_bkgd_from_file = true →
      (select_background s fileName fileImage).image = s.image) ∧
    (s.applybackground = true → s.get_bkgd_from_file = false →
      (select_background s fileName fileImage).image = clampZeros s.image ∧
      ((∀ p ∈ s.image, p ≠ 0) →
        (select_background s fileName fileImage).image = s.image)) := by
  refine ⟨?_, ?_, ?_, ?_⟩
  · unfold showImage
    split_ifs <;> rfl
  · intro hab
    unfold select_background
    rw [if_neg (by simp [hab])]
  · intro hf
    unfold select_background
    split_ifs <;> rfl
  · intro hab hf
    unfold select_background
    rw [if_pos hab, if_neg (by simp [hf])]
    exact ⟨rfl, fun h => clampZeros_of_no_zero s.image h⟩

/-- C8 (amended) at a concrete input: selecting the background from the
buffer in `no_zero_state`, whose frame `[2, 5]` has no zero pixel, leaves
the stored frame unchanged. -/
theorem c8_no_mutation_amended_witness :
    (select_background no_zero_state "" []).image = no_zero_state.image :=
  ((c8_no_mutation_amended no_zero_state "" []).2.2.2 rfl rfl).2 (by decide)

/-- When the image counter is enabled, a save advances only it: the new
counter string is the incremented one, the directory counter widget is
untouched, and every capture field that is not part of the save is
preserved. -/
theorem save_image_image_counter (s : GuiState)
    (himg : s.fstate.include_incrementing_image_num.checked = true) :
    (save_image s).fstate.include_incrementing_image_num.value =
      increment_textbox s.fstate.include_incrementing_image_num.value ∧
    (save_image s).fstate.include_incrementing_dir_num =
      s.fstate.include_incrementing_dir_num := by
  simp only [save_image, write_image]
  rw [if_pos himg]
  exact ⟨rfl, rfl⟩

/-- Fields of the capture state that `save_image` never touches. -/
theorem save_image_preserves (s : GuiState) :
    (save_image s).fstate.include_incrementing_image_num.checked =
      s.fstate.include_incrementing_image_num.checked ∧
    (save_image s).timeseries_slow_checked = s.timeseries_slow_checked ∧
    (save_image s).numOfFrames2 = s.numOfFrames2 := by
  simp only [save_image, write_image]
  split_ifs <;> exact ⟨rfl, rfl, rfl⟩

/-- `next_directory` never touches the slow-series trigger. -/
theorem next_directory_flag (t : GuiState) :
    (next_directory t).timeseries_slow_checked = t.timeseries_slow_checked := by
  unfold next_directory
  split_ifs <;> rfl

/-- With the directory counter enabled, `next_directory` increments it. -/
theorem next_directory_dir (t : GuiState)
    (hdir : t.fstate.include_incrementing_dir_num.checked = true) :
    (next_directory t).fstate.include_incrementing_dir_num.value =
      increment_textbox t.fstate.include_incrementing_dir_num.value := by
  unfold next_directory
  rw [if_pos hdir]

/-- Fields that `slow_tick_save` never touches. -/
theorem slow_tick_save_preserves (s : GuiState) (now : ℚ) :
    (slow_tick_save s now).fstate.include_incrementing_image_num.checked =
      s.fstate.include_incrementing_image_num.checked ∧
    (slow_tick_save s now).timeseries_slow_checked = s.timeseries_slow_checked ∧
    (slow_tick_save s now).numOfFrames2 = s.numOfFrames2 := by
  unfold slow_tick_save
  split_ifs with h
  · exact save_image_preserves s
  · exact ⟨rfl, rfl, rfl⟩

/-- C9. During a slow time series (trigger set; the image counter is
forced on by `collectTimeSeries`): a frame is saved on a tick exactly when
the elapsed time since the start is at least `counter * interval_minutes *
60` seconds, in which case the frame is written at the current save path
and the counter advances by one, and nothing changes otherwise; the tick
ends the series (clears the trigger) exactly when the post-save counter
has reached the requested frame count, at which point the directory
counter (when enabled) advances by one. -/
theorem c9_slow_series (s : GuiState) (now : ℚ)
    (hflag : s.timeseries_slow_checked = true)
    (himg : s.fstate.include_incrementing_image_num.checked = true) :
    ((parse_nat s.fstate.include_incrementing_image_num.value : ℚ) *
        s.interval * 60 ≤ now - s.slowseries_start →
      (slow_tick_save s now).files =
        (filename s.fstate false ++ ".tif", s.image) :: s.files ∧
      parse_nat (slow_tick_save s now).fstate.include_incrementing_image_num.value =
        parse_nat s.fstate.include_incrementing_image_num.value + 1) ∧
    (¬((parse_nat s.fstate.include_incrementing_image_num.value : ℚ) *
        s.interval * 60 ≤ now - s.slowseries_start) →
      slow_tick_save s now = s) ∧
    ((slowTick s now).timeseries_slow_checked = false ↔
      s.numOfFrames2 ≤
        parse_nat (slow_tick_save s now).fstate.include_incrementing_image_num.value) ∧
    (s.numOfFrames2 ≤
        parse_nat (slow_tick_save s now).fstate.include_incrementing_image_num.value →
      s.fstate.include_incrementing_dir_num.checked = true →
      parse_nat (slowTick s now).fstate.include_incrementing_dir_num.value =
        parse_nat s.fstate.include_incrementing_dir_num.value + 1) := by
  have htext : s.fstate.include_incrementing_image_num.text =
      s.fstate.include_incrementing_image_num.value := by
    unfold CheckboxGatedValue.text
    rw [himg]
    rfl
  have hdue_iff : slow_series_due s now = true ↔
      (parse_nat s.fstate.include_incrementing_image_num.value : ℚ) *
        s.interval * 60 ≤ now - s.slowseries_start := by
    unfold slow_series_due textbox_int
    rw [htext]
    exact decide_eq_true_iff
  have hs1text : (slow_tick_save s now).fstate.include_incrementing_image_num.text =
      (slow_tick_save s now).fstate.include_incrementing_image_num.value := by
    unfold CheckboxGatedValue.text
    rw [(slow_tick_save_preserves s now).1, himg]
    rfl
  refine ⟨?_, ?_, ?_, ?_⟩
  · intro h
    unfold slow_tick_save
    rw [if_pos (hdue_iff.mpr h)]
    refine ⟨save_image_files s, ?_⟩
    rw [(save_image_image_counter s himg).1, parse_nat_increment_textbox]
  · intro h
    unfold slow_tick_save
    rw [if_neg (fun hc => h (hdue_iff.mp hc))]
  · simp only [slowTick]
    rw [if_pos hflag]
    rw [(slow_tick_save_preserves s now).2.2]
    unfold textbox_int
    rw [hs1text]
    by_cases hend : s.numOfFrames2 ≤
        parse_nat (slow_tick_save s now).fstate.include_incrementing_image_num.value
    · rw [if_pos hend]
      have hfl : ∀ t : GuiState, t.timeseries_slow_checked = false →
          (next_directory t).timeseries_slow_checked = false := by
        intro t ht
        rw [next_directory_flag]
        exact ht
      exact ⟨fun _ => hend, fun _ => hfl _ rfl⟩
    · rw [if_neg hend]
      rw [(slow_tick_save_preserves s now).2.1, hflag]
      simp only [Bool.true_eq_false, false_iff]
      exact hend
  · intro hend hdir
    simp only [slowTick]
    rw [if_pos hflag]
    rw [(slow_tick_save_preserves s now).2.2]
    unfold textbox_int
    rw [hs1text, if_pos hend]
    have hdir1 : ({ slow_tick_save s now with timeseries_slow_checked := false } :
        GuiState).fstate.include_incrementing_dir_num =
        s.fstate.include_incrementing_dir_num := by
      show (slow_tick_save s now).fstate.include_incrementing_dir_num = _
      unfold slow_tick_save
      split_ifs with h
      · exact (save_image_image_counter s himg).2
      · rfl
    rw [next_directory_dir _ (by rw [hdir1]; exact hdir)]
    rw [hdir1, parse_nat_increment_textbox]

/-- C9 at the concrete state `slow_state` at time 100: the saved frame is
due, the counter reaches the requested count of 1, the series ends and the
directory counter advances from "00" to parse value 1. -/
theorem c9_slow_series_witness :
    parse_nat (slowTick slow_state 100).fstate.include_incrementing_dir_num.value =
      parse_nat slow_state.fstate.include_incrementing_dir_num.value + 1 :=
  (c9_slow_series slow_state 100 rfl rfl).2.2.2
    (by
      have hdue : slow_series_due slow_state 100 = true := by
        have h0 : textbox_int slow_state.fstate.include_incrementing_image_num = 0 := by
          decide
        unfold slow_series_due
        rw [h0]
        norm_num [slow_state]
      unfold slow_tick_save
      rw [if_pos hdue]
      decide)
    rfl

/-- Invariant of the chunked copy loop: if the output is correct below the
current block, then after the loop it is correct below the final block and
the loop guard has failed. -/
theorem block_loop_spec {F : Type} (inf : ℕ → F) (chunk n_frames block : ℕ)
    (out : ℕ → Option F)
    (hout : ∀ j, j < block * chunk → out j = some (inf j)) :
    (∀ j, j < (block_loop inf chunk n_frames block out).2 * chunk →
      (block_loop inf chunk n_frames block out).1 j = some (inf j)) ∧
    ¬(0 < chunk ∧
      ((block_loop inf chunk n_frames block out).2 + 1) * chunk ≤ n_frames) := by
  rw [block_loop]
  split
  next h =>
    apply block_loop_spec inf chunk n_frames (block + 1)
    intro j hj
    unfold write_slice fill_buffer
    rw [Nat.succ_mul] at hj
    by_cases hin : block * chunk ≤ j ∧ j < block * chunk + chunk
    · rw [if_pos hin]
      have harg : block * chunk + (j - block * chunk) = j := by omega
      rw [harg]
    · rw [if_neg hin]
      rcases Nat.lt_or_ge j (block * chunk) with hlow | hlow
      · exact hout j hlow
      · exact absurd ⟨hlow, by omega⟩ hin
  next h =>
    exact ⟨hout, h⟩
termination_by n_frames - block * chunk
decreasing_by
  simp only [Nat.succ_mul] at *
  omega

/-- The data movement of `compress_h5` is a faithful copy: every dataset
index below `n_frames` ends up at the same position of the output,
including the positions covered only by the partial final chunk. -/
theorem compress_copy_spec {F : Type} (inf : ℕ → F) (n_frames : ℕ) :
    ∀ i, i < n_frames → compress_copy inf n_frames i = some (inf i) := by
  intro i hi
  have h := block_loop_spec inf (min n_frames 100) n_frames 0 (fun _ => none)
    (by intro j hj; omega)
  have hchunk : 0 < min n_frames 100 := by omega
  have hguard : ¬((block_loop inf (min n_frames 100) n_frames 0
      (fun _ => none)).2 + 1) * min n_frames 100 ≤ n_frames :=
    fun hle => h.2 ⟨hchunk, hle⟩
  simp only [compress_copy]
  set r := block_loop inf (min n_frames 100) n_frames 0 (fun _ => none) with hr
  rw [Nat.succ_mul] at hguard
  by_cases hpart : r.2 * min n_frames 100 < n_frames
  · rw [if_pos hpart]
    unfold write_slice fill_buffer
    by_cases hin : r.2 * min n_frames 100 ≤ i ∧
        i < r.2 * min n_frames 100 + (n_frames - r.2 * min n_frames 100)
    · rw [if_pos hin]
      have harg : r.2 * min n_frames 100 + (i - r.2 * min n_frames 100) = i := by
        omega
      rw [harg]
    · rw [if_neg hin]
      rcases Nat.lt_or_ge i (r.2 * min n_frames 100) with hlow | hlow
      · exact h.1 i hlow
      · exact absurd ⟨hlow, by omega⟩ hin
  · rw [if_neg hpart]
    exact h.1 i (by omega)

/-- C10. The claim asserts a file whose name does not end in
".uncompressed.h5" is left untouched with no output written. That is false
on the code: the guard only inspects the dot-separated component before the
last one, so "x.uncompressed.txt" — which does not end in
".uncompressed.h5" — is processed and an output named "x.txt" is written. -/
theorem c10_compress_counterexample :
    str_endsWith "x.uncompressed.txt" ".uncompressed.h5" = false ∧
    compress_h5_name_check "x.uncompressed.txt" =
      CompressNameOutcome.proceeds "x.txt" := by
  refine ⟨by decide, by decide⟩

/-- C10 (amended). For an uncompressed series file with `n` frame datasets
keyed "0" through "n-1", every output position `i < n` receives input
dataset `str(i)` — including the positions the chunk size `min(n, 100)`
covers only with a partial final chunk. The name guard, however, tests
only the second-to-last dot-separated component: "x.uncompressed.h5" is
processed into "x.h5", "a.b.h5" is skipped, a dotless name raises
`IndexError`, and "x.uncompressed.txt" is processed even though it does
not end in ".uncompressed.h5". -/
theorem c10_compress_amended {F : Type} (inf : ℕ → F) (n_frames i : ℕ)
    (hi : i < n_frames) :
    compress_copy inf n_frames i = some (inf i) ∧
    compress_h5_name_check "x.uncompressed.h5" =
      CompressNameOutcome.proceeds "x.h5" ∧
    compress_h5_name_check "a.b.h5" = CompressNameOutcome.skipped ∧
    compress_h5_name_check "noext" = CompressNameOutcome.crash :=
  ⟨compress_copy_spec inf n_frames i hi, by decide, by decide, by decide⟩

/-- C10 (amended) at a concrete input: a 250-frame input (chunk 100, two
full chunks and a partial chunk of 50) restores dataset 237 at position
237. -/
theorem c10_compress_amended_witness :
    compress_copy (fun k : ℕ => k) 250 237 = some 237 ∧
    compress_h5_name_check "x.uncompressed.h5" =
      CompressNameOutcome.proceeds "x.h5" ∧
    compress_h5_name_check "a.b.h5" = CompressNameOutcome.skipped ∧
    compress_h5_name_check "noext" = CompressNameOutcome.crash :=
  c10_compress_amended (fun k : ℕ => k) 250 237 (by decide)

end CamCtrl
